import Mathlib

/-!
Verification of the document-processing core of the
Intelligent-Document-Processing-RAG-System repository.

The Python sources (src/document_processor.py, src/entity_extractor.py,
src/rag_engine.py) are shallowly embedded below.  Strings are modelled as
`List Char`; Python's character classes (`\s`, `\w`, `\d`, `[A-Z]`, ...)
are modelled over ASCII, which is the alphabet the patterns and the spec
are written for.  The unbounded `while` loop of `chunk_text` is modelled
with an explicit fuel parameter; running out of fuel (`ChunkRes.fuelOut`)
corresponds to the loop still running.
-/

namespace IDP

abbrev Str := List Char

/-- Python whitespace (the characters matched by `\s` and stripped by
`str.strip()`), over ASCII. -/
def isPySpace (c : Char) : Bool :=
  c = ' ' || c = '\t' || c = '\n' || c = '\r' || c = '\x0b' || c = '\x0c'

/-- ASCII uppercase letter, the class `[A-Z]`. -/
def isUpperC (c : Char) : Bool := 'A' ≤ c && c ≤ 'Z'

/-- ASCII lowercase letter, the class `[a-z]`. -/
def isLowerC (c : Char) : Bool := 'a' ≤ c && c ≤ 'z'

/-- ASCII digit, the class `[0-9]` / `\d`. -/
def isDigitC (c : Char) : Bool := '0' ≤ c && c ≤ '9'

/-- ASCII letter, the class `[A-Za-z]`. -/
def isAlphaC (c : Char) : Bool := isUpperC c || isLowerC c

/-- ASCII letter or digit. -/
def isAlnumC (c : Char) : Bool := isAlphaC c || isDigitC c

/-- Python word character (`\w`), over ASCII: letter, digit or underscore. -/
def isWordC (c : Char) : Bool := isAlnumC c || c = '_'

/-- One pass of `re.sub(r'\s+', ' ', text)`: every maximal whitespace run
becomes a single space.  `prevSpace` records whether the previous emitted
character closed a whitespace run. -/
def collapseWS : Str → Bool → Str
  | [], _ => []
  | c :: rest, prevSpace =>
    if isPySpace c then
      if prevSpace then collapseWS rest true else ' ' :: collapseWS rest true
    else c :: collapseWS rest false

/-- Python `str.strip()`: drop whitespace from both ends. -/
def pyStrip (l : Str) : Str :=
  ((l.dropWhile isPySpace).reverse.dropWhile isPySpace).reverse

/-- `re.sub(r'\s+', ' ', text).strip()` — the normalization performed at the
top of `chunk_text`. -/
def normalize (text : Str) : Str := pyStrip (collapseWS text false)

/-- Python sequence-index clamping for slice ends: a negative index counts
from the end of the sequence, then both are clamped into `[0, n]`. -/
def pyIdx (n : Nat) (i : Int) : Nat :=
  if i < 0 then ((n : Int) + i).toNat else min i.toNat n

/-- Python slice `l[a:b]`. -/
def pySlice (l : Str) (a b : Int) : Str :=
  (l.take (pyIdx l.length b)).drop (pyIdx l.length a)

/-- Python indexing `l[i]` (negative `i` counts from the end); `none` is an
`IndexError`. -/
def pyGet (l : Str) (i : Int) : Option Char :=
  let j : Int := if i < 0 then (l.length : Int) + i else i
  if j < 0 then none else l.get? j.toNat

/-- The `for i in range(end, max(start + chunk_size // 2, start), -1)` search
for a sentence-ending character inside `chunk_text`.  `k` is the number of
range elements left, `i` the current index.  `none` models an `IndexError`;
`some none` means the range was exhausted without finding a break;
`some (some e)` is the adjusted end `i + 1`. -/
def findBreak (t : Str) : Nat → Int → Option (Option Int)
  | 0, _ => some none
  | k + 1, i =>
    match pyGet t i with
    | none => none
    | some c =>
      if c = '.' || c = '!' || c = '?' || c = '\n' then some (some (i + 1))
      else findBreak t k (i - 1)

/-- Result of the fuelled `chunk_text` loop: a finished chunk list, an
`IndexError`, or fuel exhaustion (the Python loop is still running). -/
inductive ChunkRes where
  | ok (chunks : List (Str × Nat))
  | err
  | fuelOut
deriving DecidableEq

/-- The `while start < len(text)` loop of `chunk_text`, with `start` kept as
a Python integer (it can go negative when `overlap` is large). -/
def chunkLoop (t : Str) (chunk_size overlap : Nat) :
    Nat → Int → Nat → List (Str × Nat) → ChunkRes
  | 0, _, _, _ => .fuelOut
  | fuel + 1, start, chunk_index, chunks =>
    if start < (t.length : Int) then
      let e0 : Int := start + (chunk_size : Int)
      let lb : Int := max (start + ((chunk_size / 2 : Nat) : Int)) start
      let eR : Option Int :=
        if e0 < (t.length : Int) then
          match findBreak t (e0 - lb).toNat e0 with
          | none => none
          | some none => some e0
          | some (some e') => some e'
        else some e0
      match eR with
      | none => .err
      | some e =>
        let chunk := pyStrip (pySlice t start e)
        if chunk = [] then
          chunkLoop t chunk_size overlap fuel (e - (overlap : Int)) chunk_index chunks
        else
          chunkLoop t chunk_size overlap fuel (e - (overlap : Int)) (chunk_index + 1)
            (chunks ++ [(chunk, chunk_index)])
    else .ok chunks

/-- `chunk_text(text, chunk_size, overlap)`; `fuel` bounds the number of
iterations of the while loop we are willing to run. -/
def chunk_text (text : Str) (chunk_size overlap : Nat) (fuel : Nat) : ChunkRes :=
  let t := normalize text
  if t.length ≤ chunk_size then .ok [(t, 0)]
  else chunkLoop t chunk_size overlap fuel 0 0 []

example : normalize "  a \t b  ".data = "a b".data := by decide
example : chunk_text " hi  there ".data 500 50 0 = .ok [("hi there".data, 0)] := by decide
example : chunk_text "".data 500 50 1 = .ok [(([] : Str), 0)] := by decide
-- overlap = chunk_size: the loop re-reads the same window forever
example : chunkLoop "aaaaaa".data 5 5 3 0 0 [] = .fuelOut := by decide
example : chunk_text "aaaaaab".data 3 1 10 =
    .ok [("aaa".data, 0), ("aaa".data, 1), ("aab".data, 2), ("b".data, 3)] := by decide

/-! ## Document classification (`classify_document`) -/

/-- Python `str.lower()` (ASCII model). -/
def toLowerStr (l : Str) : Str := l.map Char.toLower

/-- Python substring test `needle in hay`. -/
def containsSub : Str → Str → Bool
  | [], needle => needle.isEmpty
  | h :: t, needle => needle.isPrefixOf (h :: t) || containsSub t needle

/-- The keyword table of `classify_document`, in declaration order. -/
def classifications : List (String × List String) :=
  [("loan_application",
      ["loan application", "loan amount", "emi", "interest rate",
       "home loan", "personal loan", "business loan", "loan tenure",
       "principal amount", "loan purpose", "collateral"]),
   ("kyc_document",
      ["aadhaar", "aadhar", "pan card", "kyc", "know your customer",
       "identity proof", "address proof", "passport", "voter id",
       "driving license", "verification", "identity document"]),
   ("bank_statement",
      ["account statement", "transaction history", "opening balance",
       "closing balance", "credit", "debit", "statement period",
       "account number", "transaction date", "bank statement"]),
   ("salary_slip",
      ["salary slip", "pay slip", "gross salary", "net salary",
       "basic pay", "allowances", "deductions", "pf contribution",
       "income tax", "take home", "earnings"])]

/-- `sum(1 for kw in keywords if kw in text_lower)`. -/
def keywordScore (text_lower : Str) (keywords : List String) : Nat :=
  (keywords.filter (fun kw => containsSub text_lower kw.data)).length

/-- Python `max(scores, key=scores.get)` over an association list: a later
entry replaces the current best only when its score is strictly greater, so
the first entry attaining the maximum wins. -/
def pyMaxBySnd (first : String × Nat) (rest : List (String × Nat)) : String × Nat :=
  rest.foldl (fun best p => if p.2 > best.2 then p else best) first

/-- `classify_document(text)` from src/document_processor.py. -/
def classify_document (text : Str) : String :=
  let text_lower := toLowerStr text
  let scores := classifications.map (fun p => (p.1, keywordScore text_lower p.2))
  match scores with
  | [] => "other"
  | h :: rest =>
    let best := pyMaxBySnd h rest
    if best.2 = 0 then "other" else best.1

/-- Number of case-insensitive keyword hits a document type's fixed keyword
list has in `text` (0 for a type outside the table). -/
def hitsOf (text : Str) (doc_type : String) : Nat :=
  match classifications.find? (fun p => p.1 = doc_type) with
  | some p => keywordScore (toLowerStr text) p.2
  | none => 0

/-- Modelled from the spec's words: "the type with the most case-insensitive
substring hits wins, ties by declaration order; zero hits across all types
yields `other`" — written as a direct first-argmax over the four types. -/
def specClassify (text : Str) : String :=
  let s1 := hitsOf text "loan_application"
  let s2 := hitsOf text "kyc_document"
  let s3 := hitsOf text "bank_statement"
  let s4 := hitsOf text "salary_slip"
  if s1 = 0 ∧ s2 = 0 ∧ s3 = 0 ∧ s4 = 0 then "other"
  else if s1 ≥ s2 ∧ s1 ≥ s3 ∧ s1 ≥ s4 then "loan_application"
  else if s2 ≥ s3 ∧ s2 ≥ s4 then "kyc_document"
  else if s3 ≥ s4 then "bank_statement"
  else "salary_slip"

example : classify_document "My Loan Application for a home loan, EMI data".data
    = "loan_application" := by decide
example : classify_document "nothing relevant here".data = "other" := by decide
-- tie between kyc (aadhaar) and bank (credit): first declared wins
example : classify_document "aadhaar credit".data = "kyc_document" := by decide

/-- The first-maximum behaviour of Python's `max` over the four scored
types, compared with the nested-conditional argmax. -/
theorem classify_core (s1 s2 s3 s4 : Nat) :
    (if (pyMaxBySnd ("loan_application", s1)
          [("kyc_document", s2), ("bank_statement", s3), ("salary_slip", s4)]).2 = 0
     then "other"
     else (pyMaxBySnd ("loan_application", s1)
          [("kyc_document", s2), ("bank_statement", s3), ("salary_slip", s4)]).1) =
    (if s1 = 0 ∧ s2 = 0 ∧ s3 = 0 ∧ s4 = 0 then "other"
     else if s1 ≥ s2 ∧ s1 ≥ s3 ∧ s1 ≥ s4 then "loan_application"
     else if s2 ≥ s3 ∧ s2 ≥ s4 then "kyc_document"
     else if s3 ≥ s4 then "bank_statement"
     else "salary_slip") := by
  simp only [pyMaxBySnd, List.foldl]
  split_ifs <;> first | rfl | (exfalso; omega)

/-- C4 — `classify_document` returns the document type whose fixed keyword
list has the most case-insensitive substring hits in the text, ties broken
by the declaration order of the type table; when no keyword of any type
matches, it returns `"other"`. -/
theorem C4_classify_document_first_argmax (text : Str) :
    classify_document text = specClassify text := by
  have e : classify_document text =
      (if (pyMaxBySnd ("loan_application", hitsOf text "loan_application")
            [("kyc_document", hitsOf text "kyc_document"),
             ("bank_statement", hitsOf text "bank_statement"),
             ("salary_slip", hitsOf text "salary_slip")]).2 = 0
       then "other"
       else (pyMaxBySnd ("loan_application", hitsOf text "loan_application")
            [("kyc_document", hitsOf text "kyc_document"),
             ("bank_statement", hitsOf text "bank_statement"),
             ("salary_slip", hitsOf text "salary_slip")]).1) := rfl
  rw [e, classify_core]
  rfl

/-! ## Chunker claims -/

/-- The concrete text of C1's failing input: six letters, normalized length
6, chunked with `chunk_size = 5`, `overlap = 5`. -/
def c1text : Str := "aaaaaa".data

theorem c1_loop_stuck :
    ∀ fuel idx acc, chunkLoop c1text 5 5 fuel 0 idx acc = .fuelOut := by
  intro fuel
  induction fuel with
  | zero => intro idx acc; rfl
  | succ n ih =>
    intro idx acc
    have step : chunkLoop c1text 5 5 (n + 1) 0 idx acc =
        chunkLoop c1text 5 5 n 0 (idx + 1) (acc ++ [("aaaaa".data, idx)]) := rfl
    rw [step]
    exact ih (idx + 1) (acc ++ [("aaaaa".data, idx)])

/-- C1 — refuted on the code: with `overlap ≥ chunk_size` (here both the
text-window size 5 and overlap 5 on a 6-character text) the `while` loop of
`chunk_text` never advances `start` (it stays at 0 forever), so the loop
does not terminate for any amount of fuel and makes no forward progress,
contrary to the claimed invariant.  The spec explicitly requires the guard,
so this is a bug in the code. -/
theorem C1_chunk_text_nonterminating :
    ∀ fuel : Nat, chunk_text "aaaaaa".data 5 5 fuel = ChunkRes.fuelOut := by
  intro fuel
  have e : chunk_text "aaaaaa".data 5 5 fuel = chunkLoop c1text 5 5 fuel 0 0 [] := rfl
  rw [e]
  exact c1_loop_stuck fuel 0 []

/-- C2 — when the whitespace-normalized text fits in `chunk_size`, the
function returns exactly the single chunk `(normalized text, 0)`. -/
theorem C2_chunk_text_single_chunk (text : Str) (chunk_size overlap fuel : Nat)
    (h : (normalize text).length ≤ chunk_size) :
    chunk_text text chunk_size overlap fuel = ChunkRes.ok [(normalize text, 0)] := by
  unfold chunk_text
  simp [h]

/-- Witness for C2 at the concrete input `"hi there"` with the default
parameters. -/
theorem C2_witness :
    chunk_text "hi there".data 500 50 0 = ChunkRes.ok [("hi there".data, 0)] := by
  have h := C2_chunk_text_single_chunk "hi there".data 500 50 0 (by decide)
  simpa using h

/-- C3 — counterexample: on empty input (normalized text is empty) the
short path of `chunk_text` returns the single chunk `("", 0)`, whose text
is empty and which is indexed, contradicting the claim that no returned
chunk has empty text. -/
theorem C3_counterexample :
    chunk_text "".data 500 50 1 = ChunkRes.ok [(([] : Str), 0)] ∧
      (([] : Str)).length = 0 := by
  constructor
  · decide
  · rfl

theorem chunkLoop_ok_nonempty (t : Str) (cs ov : Nat) :
    ∀ fuel (start : Int) idx acc res,
      (∀ p ∈ acc, p.1 ≠ ([] : Str)) →
      chunkLoop t cs ov fuel start idx acc = .ok res →
      ∀ p ∈ res, p.1 ≠ ([] : Str) := by
  intro fuel
  induction fuel with
  | zero =>
    intro start idx acc res hacc h
    simp [chunkLoop] at h
  | succ n ih =>
    intro start idx acc res hacc h
    simp only [chunkLoop] at h
    split at h
    · split at h
      · exact absurd h (by simp)
      · split at h
        · exact ih _ _ _ _ hacc h
        · refine ih _ _ _ _ ?_ h
          intro p hp
          rcases List.mem_append.1 hp with h1 | h2
          · exact hacc p h1
          · rename_i hchunk
            rw [List.mem_singleton.1 h2]
            exact hchunk
    · have : acc = res := by
        simpa using h
      intro p hp
      exact hacc p (this ▸ hp)

/-- C3 — amended: whenever the normalized text is non-empty and the fuelled
`chunk_text` completes, every returned chunk has non-empty text (empty
post-trim chunks are dropped inside the loop and receive no index); only
for empty normalized input does the short path return the empty chunk
`("", 0)`. -/
theorem C3_chunks_nonempty (text : Str) (chunk_size overlap fuel : Nat)
    (res : List (Str × Nat))
    (hok : chunk_text text chunk_size overlap fuel = ChunkRes.ok res)
    (hne : normalize text ≠ []) :
    ∀ p ∈ res, p.1 ≠ ([] : Str) := by
  simp only [chunk_text] at hok
  split at hok
  · have : res = [(normalize text, 0)] := by
      have := hok
      simp at this
      exact this.symm
    intro p hp
    rw [this] at hp
    simp at hp
    rw [hp]
    exact hne
  · exact chunkLoop_ok_nonempty _ _ _ fuel 0 0 [] res (by simp) hok

/-- Witness for C3's amended theorem at a concrete input. -/
theorem C3_witness : ("ab".data, 0).1 ≠ ([] : Str) := by
  exact C3_chunks_nonempty "ab".data 500 50 0 [("ab".data, 0)] (by decide)
    (by decide) ("ab".data, 0) (by simp)

/-! ## Entity extraction (src/entity_extractor.py)

Each regex of `PATTERNS` is embedded as a matcher
`Str → Nat → Option Nat` returning the length of the (greedy, leftmost)
match attempt at a position, with Python's backtracking order reproduced
where the pattern allows more than one parse.  All patterns are applied
with `re.IGNORECASE`, so letter classes accept both cases. -/

/-- Character test at a position; out of range is `false`. -/
def classAt (f : Char → Bool) (t : Str) (p : Nat) : Bool :=
  match t.get? p with
  | some c => f c
  | none => false

/-- `n` consecutive characters of class `f` starting at `p`. -/
def nclass (t : Str) (p n : Nat) (f : Char → Bool) : Bool :=
  decide (p + n ≤ t.length) && ((t.drop p).take n).all f

/-- Length of the maximal run of class `f` starting at `p` (the greedy
first try of `f+` / `f*`). -/
def runLen (f : Char → Bool) (t : Str) (p : Nat) : Nat :=
  ((t.drop p).takeWhile f).length

/-- Is the character at `p` a word character (out of range counts as no)? -/
def wordB (t : Str) (p : Nat) : Bool := classAt isWordC t p

/-- Python's `\b`: the word-ness of the characters on the two sides of
position `p` differs (positions outside the string are non-word). -/
def boundary (t : Str) (p : Nat) : Bool :=
  (if p = 0 then false else wordB t (p - 1)) != wordB t p

/-- `\b[A-Z]{5}[0-9]{4}[A-Z]\b` with IGNORECASE. -/
def matchPan (t : Str) (p : Nat) : Option Nat :=
  if boundary t p && nclass t p 5 isAlphaC && nclass t (p + 5) 4 isDigitC &&
      nclass t (p + 9) 1 isAlphaC && boundary t (p + 10)
  then some 10 else none

/-- One alternative of the two greedy `\s?` gaps of the Aadhaar pattern:
`sp1`/`sp2` say whether the optional space is taken. -/
def aadTry (t : Str) (p : Nat) (sp1 sp2 : Bool) : Option Nat :=
  let q1 := if sp1 then p + 5 else p + 4
  if sp1 && !classAt isPySpace t (p + 4) then none
  else if !nclass t q1 4 isDigitC then none
  else
    let q2 := if sp2 then q1 + 5 else q1 + 4
    if sp2 && !classAt isPySpace t (q1 + 4) then none
    else if !nclass t q2 4 isDigitC then none
    else if boundary t (q2 + 4) then some (q2 + 4 - p) else none

/-- `\b\d{4}\s?\d{4}\s?\d{4}\b`, trying the greedy alternatives of the two
`\s?` in Python's backtracking order. -/
def matchAadhaar (t : Str) (p : Nat) : Option Nat :=
  if !(boundary t p && nclass t p 4 isDigitC) then none
  else
    aadTry t p true true <|> aadTry t p true false <|>
      aadTry t p false true <|> aadTry t p false false

/-- `\b[6-9]\d{9}\b`. -/
def matchPhone (t : Str) (p : Nat) : Option Nat :=
  if boundary t p && classAt (fun c => '6' ≤ c && c ≤ '9') t p &&
      nclass t (p + 1) 9 isDigitC && boundary t (p + 10)
  then some 10 else none

/-- Local-part class `[A-Za-z0-9._%+-]`. -/
def emailClass1 (c : Char) : Bool :=
  isAlnumC c || c = '.' || c = '_' || c = '%' || c = '+' || c = '-'

/-- Domain class `[A-Za-z0-9.-]`. -/
def emailClass2 (c : Char) : Bool := isAlnumC c || c = '.' || c = '-'

/-- Top-level-domain class `[A-Z|a-z]` (the literal `|` is part of the
character class in the source pattern). -/
def emailClass3 (c : Char) : Bool := isAlphaC c || c = '|'

/-- Greedy `[A-Z|a-z]{2,}\b` at position `s`: try the longest run length
`j` first, going down to 2, accepting when `\b` holds after it. -/
def tldSearch (t : Str) (s : Nat) : Nat → Option Nat
  | 0 => none
  | j + 1 =>
    if j + 1 < 2 then none
    else if boundary t (s + (j + 1)) then some (j + 1)
    else tldSearch t s j

/-- Backtracking over how many domain characters `[A-Za-z0-9.-]+` keeps
(longest first); after them the pattern needs a literal `.` and a TLD. -/
def emailDomain (t : Str) (q : Nat) : Nat → Option Nat
  | 0 => none
  | k + 1 =>
    (if t.get? (q + k + 1) = some '.' then
      (tldSearch t (q + k + 2) (runLen emailClass3 t (q + k + 2))).map
        (fun j => (k + 1) + 1 + j)
     else none) <|> emailDomain t q k

/-- `\b[A-Za-z0-9._%+-]+@[A-Za-z0-9.-]+\.[A-Z|a-z]{2,}\b`. -/
def matchEmail (t : Str) (p : Nat) : Option Nat :=
  if !boundary t p then none
  else
    let n1 := runLen emailClass1 t p
    if n1 = 0 then none
    else if t.get? (p + n1) ≠ some '@' then none
    else
      (emailDomain t (p + n1 + 1) (runLen emailClass2 t (p + n1 + 1))).map
        (fun d => n1 + 1 + d)

/-- `\s?[\d,]+(?:\.\d{2})?` — the tail of the amount pattern after its
currency prefix, starting at `s`; returns the consumed length. -/
def amountTail (t : Str) (s : Nat) : Option Nat :=
  let num : Nat → Option Nat := fun q =>
    let m := runLen (fun c => isDigitC c || c = ',') t q
    if m = 0 then none
    else if t.get? (q + m) = some '.' && nclass t (q + m + 1) 2 isDigitC then
      some (m + 3)
    else some m
  (if classAt isPySpace t s then (num (s + 1)).map (· + 1) else none) <|> num s

/-- Case-insensitive literal character test. -/
def lowEq (t : Str) (p : Nat) (c : Char) : Bool :=
  match t.get? p with
  | some d => d.toLower = c
  | none => false

/-- `(?:₹|Rs\.?|INR)\s?[\d,]+(?:\.\d{2})?` with IGNORECASE (no `\b`). -/
def matchAmount (t : Str) (p : Nat) : Option Nat :=
  if t.get? p = some '₹' then (amountTail t (p + 1)).map (· + 1)
  else if lowEq t p 'r' && lowEq t (p + 1) 's' then
    (if t.get? (p + 2) = some '.' then (amountTail t (p + 3)).map (· + 3) else none) <|>
      (amountTail t (p + 2)).map (· + 2)
  else if lowEq t p 'i' && lowEq t (p + 1) 'n' && lowEq t (p + 2) 'r' then
    (amountTail t (p + 3)).map (· + 3)
  else none

/-- The date pattern: two digits, a slash-or-dash, two digits, a
slash-or-dash, four digits, with `\b` on both sides. -/
def matchDate (t : Str) (p : Nat) : Option Nat :=
  if boundary t p && nclass t p 2 isDigitC &&
      classAt (fun c => c = '/' || c = '-') t (p + 2) &&
      nclass t (p + 3) 2 isDigitC &&
      classAt (fun c => c = '/' || c = '-') t (p + 5) &&
      nclass t (p + 6) 4 isDigitC && boundary t (p + 10)
  then some 10 else none

/-- Greedy `\d{9,18}\b`: try the digit-count `k` from the longest allowed
down to 9, accepting when `\b` holds after the digits. -/
def acctSearch (t : Str) (p : Nat) : Nat → Option Nat
  | 0 => none
  | k + 1 =>
    if k + 1 < 9 then none
    else if boundary t (p + (k + 1)) then some (k + 1)
    else acctSearch t p k

/-- `\b\d{9,18}\b`. -/
def matchAcct (t : Str) (p : Nat) : Option Nat :=
  if !boundary t p then none
  else acctSearch t p (min (runLen isDigitC t p) 18)

/-- `\b[A-Z]{4}0[A-Z0-9]{6}\b` with IGNORECASE. -/
def matchIfsc (t : Str) (p : Nat) : Option Nat :=
  if boundary t p && nclass t p 4 isAlphaC && t.get? (p + 4) = some '0' &&
      nclass t (p + 5) 6 isAlnumC && boundary t (p + 11)
  then some 11 else none

/-- `\b[1-9]\d{5}\b`. -/
def matchPin (t : Str) (p : Nat) : Option Nat :=
  if boundary t p && classAt (fun c => '1' ≤ c && c ≤ '9') t p &&
      nclass t (p + 1) 5 isDigitC && boundary t (p + 6)
  then some 6 else none

/-- `\b\d+(?:\.\d+)?%`. -/
def matchPct (t : Str) (p : Nat) : Option Nat :=
  if !boundary t p then none
  else
    let m := runLen isDigitC t p
    if m = 0 then none
    else
      match t.get? (p + m) with
      | some '.' =>
        let r := runLen isDigitC t (p + m + 1)
        if 1 ≤ r && t.get? (p + m + 1 + r) = some '%' then some (m + 1 + r + 1)
        else none
      | some '%' => some (m + 1)
      | _ => none

/-- `re.findall` scanning: attempt the pattern at every position from the
left; on a match record it and resume at its end.  `fuel` bounds the number
of scan steps (`t.length + 1` always suffices, as every step advances). -/
def findallAux (m : Str → Nat → Option Nat) (t : Str) : Nat → Nat → List Str
  | 0, _ => []
  | fuel + 1, p =>
    if p > t.length then []
    else
      match m t p with
      | some L => (t.drop p).take L :: findallAux m t fuel (p + max L 1)
      | none => findallAux m t fuel (p + 1)

def findall (m : Str → Nat → Option Nat) (t : Str) : List Str :=
  findallAux m t (t.length + 1) 0

/-- `list(dict.fromkeys(matches))`: deduplicate keeping first occurrences. -/
def dedupKeepFirst (seen : List Str) : List Str → List Str
  | [] => []
  | x :: rest =>
    if seen.contains x then dedupKeepFirst seen rest
    else x :: dedupKeepFirst (x :: seen) rest

/-- The `PATTERNS` registry, in declaration order. -/
def PATTERNS : List (String × (Str → Nat → Option Nat)) :=
  [("pan_number", matchPan),
   ("aadhaar_number", matchAadhaar),
   ("phone_number", matchPhone),
   ("email", matchEmail),
   ("amount", matchAmount),
   ("date", matchDate),
   ("account_number", matchAcct),
   ("ifsc_code", matchIfsc),
   ("pin_code", matchPin),
   ("percentage", matchPct)]

/-- `extract_entities(text)`: per-pattern findall, deduplicated, with the
entity types that produced no match left out of the mapping. -/
def extract_entities (t : Str) : List (String × List Str) :=
  (PATTERNS.map (fun pr => (pr.1, dedupKeepFirst [] (findall pr.2 t)))).filter
    (fun pr => !pr.2.isEmpty)

example : findall matchPan "PAN: ABCPE1234F and abcpe1234f".data =
    ["ABCPE1234F".data, "abcpe1234f".data] := by decide
example : findall matchAadhaar "id 2345 6789 0123 ok".data =
    ["2345 6789 0123".data] := by decide
example : findall matchEmail "mail me at jo.do+x@bank.co.in now".data =
    ["jo.do+x@bank.co.in".data] := by decide
example : findall matchAmount "pay Rs. 50,000.25 or ₹100 or inr 42".data =
    ["Rs. 50,000.25".data, "₹100".data, "inr 42".data] := by decide
example : findall matchAcct "acct 123456789012 end".data =
    ["123456789012".data] := by decide
example : findall matchAcct "toolong 1234567890123456789 x".data = [] := by decide
example : findall matchPct "rate 12.5% or 7%".data = ["12.5%".data, "7%".data] := by decide
example : findall matchDate "on 01/04/2023.".data = ["01/04/2023".data] := by decide
example : extract_entities "abcpe1234f".data = [("pan_number", ["abcpe1234f".data])] := by
  decide
example : findall matchEmail "a@b.c|de f".data = ["a@b.c|de".data] := by decide
example : findall matchEmail "%a@b.com".data = ["a@b.com".data] := by decide
example : findall matchEmail "a@b.|cd".data = ["a@b.|cd".data] := by decide
example : findall matchAmount "Rs.abc Rs..5 rs 7,".data = ["rs 7,".data] := by decide
example : findall matchPct "rate 12.5% or 7% and 3.% x 12.34.5%".data =
    ["12.5%".data, "7%".data, "34.5%".data] := by decide
example : findall matchAadhaar "1234567890123".data = [] := by decide
example : findall matchAadhaar "2345  6789 0123".data = [] := by decide
example : findall matchPin "560001 12 999999a".data = ["560001".data] := by decide
example : findall matchAcct "123456789a".data = [] := by decide

/-! ## Validators

`validate_pan` / `validate_aadhaar` / `validate_ifsc` use
`re.match(r'^...$', s)` (no IGNORECASE).  Python's `$` matches at the end
of the string or just before a single newline at the end, so each shape
also accepts one trailing `'\n'` after the matched characters. -/

/-- `[A-Z]{5}[0-9]{4}[A-Z]` over a whole string. -/
def panShape (s : Str) : Bool :=
  decide (s.length = 10) && (s.take 5).all isUpperC &&
    ((s.drop 5).take 4).all isDigitC && (s.drop 9).all isUpperC

/-- `re.match(r'^shape$', s)`: the shape over all of `s`, or over all of
`s` but one trailing newline. -/
def dollarMatch (shape : Str → Bool) (s : Str) : Bool :=
  shape s || (s.getLast? = some '\n' && shape s.dropLast)

/-- The fixed holder-type set for a PAN's 4th character. -/
def valid_4th : List Char := ['P', 'C', 'H', 'F', 'A', 'T', 'B', 'L', 'J', 'G']

/-- `validate_pan` from src/entity_extractor.py. -/
def validate_pan (s : Str) : Bool :=
  if !dollarMatch panShape s then false
  else
    match s.get? 3 with
    | some c => valid_4th.contains c
    | none => false

/-- `\d{12}` over a whole string. -/
def aadShape (s : Str) : Bool := decide (s.length = 12) && s.all isDigitC

/-- `validate_aadhaar`: remove every space (`str.replace(' ', '')`), check
the 12-digit shape, and reject a first digit of 0 or 1. -/
def validate_aadhaar (s : Str) : Bool :=
  let clean := s.filter (fun c => !(c = ' '))
  if !dollarMatch aadShape clean then false
  else
    match clean.get? 0 with
    | some c => !(c = '0' || c = '1')
    | none => false

/-- `[A-Z]{4}0[A-Z0-9]{6}` over a whole string. -/
def ifscShape (s : Str) : Bool :=
  decide (s.length = 11) && (s.take 4).all isUpperC && s.get? 4 = some '0' &&
    (s.drop 5).all (fun c => isUpperC c || isDigitC c)

/-- `validate_ifsc` from src/entity_extractor.py. -/
def validate_ifsc (s : Str) : Bool := dollarMatch ifscShape s

example : validate_pan "ABCPE1234F".data = true := by decide
example : validate_pan "ABCDE1234F".data = false := by decide
example : validate_pan "ABCPE1234F\n".data = true := by decide
example : validate_aadhaar "1234 5678 9012".data = false := by decide
-- the spec asserts this input validates false; the code accepts it
-- (it is 12 digits starting with 2)
example : validate_aadhaar "234567890123".data = true := by decide
example : validate_aadhaar "234567890121".data = true := by decide
example : validate_aadhaar " 234567890121\n".data = true := by decide
example : validate_ifsc "SBIN0001234".data = true := by decide
example : validate_ifsc "sbin0001234".data = false := by decide

/-! ## Quality scoring (`calculate_quality_score`)

The score is computed in `ℚ`; the Python float arithmetic involved
(`(found / len) * 100`, `+ 5`, `min(100, ·)`) is exact for the values that
occur, so the rational model is faithful. -/

/-- The required-entity table, in declaration order. -/
def required_entities : List (String × List String) :=
  [("loan_application", ["pan_number", "phone_number", "amount", "date"]),
   ("kyc_document", ["pan_number", "aadhaar_number", "phone_number", "date"]),
   ("bank_statement", ["account_number", "ifsc_code", "date", "amount"]),
   ("salary_slip", ["pan_number", "amount", "date"]),
   ("other", [])]

/-- Dictionary access on an extraction result: `entities[k]` when present. -/
def entLookup (es : List (String × List Str)) (k : String) : Option (List Str) :=
  (es.find? (fun p => p.1 = k)).map (fun p => p.2)

/-- `found = sum(1 for r in required if r in entities)`. -/
def foundCount (entities : List (String × List Str)) (required : List String) : Nat :=
  (required.filter (fun r => (entLookup entities r).isSome)).length

/-- The `validation_bonus` accumulator of `calculate_quality_score`: +5 when
some extracted pan validates, +5 more when some extracted aadhaar does. -/
def validation_bonus (entities : List (String × List Str)) : Nat :=
  (match entLookup entities "pan_number" with
   | some pans => if 0 < (pans.filter validate_pan).length then 5 else 0
   | none => 0) +
  (match entLookup entities "aadhaar_number" with
   | some l => if 0 < (l.filter validate_aadhaar).length then 5 else 0
   | none => 0)

/-- `calculate_quality_score(text, doc_type)` from src/entity_extractor.py;
the completeness/bonus arithmetic is exact, modelled in `ℚ`. -/
def calculate_quality_score (text : Str) (doc_type : String) : ℚ :=
  let entities := extract_entities text
  let required :=
    ((required_entities.find? (fun p => p.1 = doc_type)).map (fun p => p.2)).getD []
  if required.isEmpty then 75
  else
    min 100 (((foundCount entities required : ℚ) / (required.length : ℚ)) * 100 +
      (validation_bonus entities : ℚ))

/-- Unfolding helper: the score of a type whose required list is non-empty. -/
theorem cqs_eq (text : Str) (dt : String) (req : List String)
    (hreq : ((required_entities.find? (fun p => p.1 = dt)).map (fun p => p.2)).getD []
      = req)
    (h : req.isEmpty = false) :
    calculate_quality_score text dt =
      min 100 (((foundCount (extract_entities text) req : ℚ) / (req.length : ℚ)) * 100 +
        (validation_bonus (extract_entities text) : ℚ)) := by
  simp only [calculate_quality_score, hreq, h]
  rfl

example : calculate_quality_score "anything at all".data "other" = 75 := rfl
example :
    calculate_quality_score
      "Salary slip: PAN ABCPE1234F, pay Rs. 50,000 on 01/04/2023.".data
      "salary_slip" = 100 := by
  rw [cqs_eq _ "salary_slip" ["pan_number", "amount", "date"] rfl rfl]
  have h1 : foundCount
      (extract_entities "Salary slip: PAN ABCPE1234F, pay Rs. 50,000 on 01/04/2023.".data)
      ["pan_number", "amount", "date"] = 3 := by decide
  have h2 : validation_bonus
      (extract_entities "Salary slip: PAN ABCPE1234F, pay Rs. 50,000 on 01/04/2023.".data)
      = 5 := by decide
  rw [h1, h2]
  norm_num [min_def]
example : calculate_quality_score "abcpe1234f".data "salary_slip" = 100 / 3 := by
  rw [cqs_eq _ "salary_slip" ["pan_number", "amount", "date"] rfl rfl]
  have h1 : foundCount (extract_entities "abcpe1234f".data)
      ["pan_number", "amount", "date"] = 1 := by decide
  have h2 : validation_bonus (extract_entities "abcpe1234f".data) = 0 := by decide
  rw [h1, h2]
  norm_num [min_def]

/-! ## Validator claims (C6, C7) -/

theorem getLast?_eq_some_iff_concat (s : Str) (a : Char) :
    s.getLast? = some a ↔ ∃ t, s = t ++ [a] := by
  constructor
  · intro h
    exact ⟨s.dropLast, (List.dropLast_append_getLast? a h).symm⟩
  · rintro ⟨t, rfl⟩
    simp [List.getLast?_append]

/-- Python's `re.match(r'^shape$', s)` accepts exactly the strings made of
a shape-matching body optionally followed by one trailing newline. -/
theorem dollarMatch_iff (shape : Str → Bool) (s : Str) :
    dollarMatch shape s = true ↔
      (shape s = true ∨ ∃ t, s = t ++ ['\n'] ∧ shape t = true) := by
  unfold dollarMatch
  rw [Bool.or_eq_true, Bool.and_eq_true]
  simp only [decide_eq_true_eq]
  constructor
  · rintro (h | ⟨hl, hsh⟩)
    · exact Or.inl h
    · rcases (getLast?_eq_some_iff_concat s '\n').1 hl with ⟨t, rfl⟩
      exact Or.inr ⟨t, rfl, by rwa [List.dropLast_concat] at hsh⟩
  · rintro (h | ⟨t, rfl, hsh⟩)
    · exact Or.inl h
    · exact Or.inr ⟨by simp [List.getLast?_append], by rwa [List.dropLast_concat]⟩

theorem classAt_append (f : Char → Bool) (t rest : Str) (p : Nat)
    (h : p < t.length) : classAt f (t ++ rest) p = classAt f t p := by
  unfold classAt
  rw [List.get?_append h]

/-- `validate_pan` as a conjunction of its regex match and its 4th-character
check. -/
theorem validate_pan_eq (s : Str) :
    validate_pan s =
      (dollarMatch panShape s && classAt (fun c => valid_4th.contains c) s 3) := by
  cases h : dollarMatch panShape s <;> simp [validate_pan, h, classAt]

/-- Claim-side predicate for C6: exactly 10 characters, the first five
uppercase, then four digits, then an uppercase letter, with the character
at index 3 in the holder-type set. -/
def panClaim (s : Str) : Bool :=
  panShape s && classAt (fun c => valid_4th.contains c) s 3

/-- C6 — counterexample: `validate_pan` accepts `"ABCPE1234F\n"`, an
11-character string (Python's `$` matches before a trailing newline), so
"true iff exactly 10 characters matching the pattern" fails. -/
theorem C6_counterexample :
    validate_pan "ABCPE1234F\n".data = true ∧
      "ABCPE1234F\n".data.length = 11 ∧ panClaim "ABCPE1234F\n".data = false := by
  refine ⟨by decide, by decide, by decide⟩

theorem panShape_length (s : Str) (h : panShape s = true) : s.length = 10 := by
  unfold panShape at h
  rw [Bool.and_eq_true, Bool.and_eq_true, Bool.and_eq_true] at h
  exact of_decide_eq_true h.1.1.1

/-- C6 — amended: `validate_pan s` is true iff `s` is exactly 10 characters
matching `[A-Z]{5}[0-9]{4}[A-Z]` with its 4th character in the holder-type
set, or such a string followed by a single trailing newline. -/
theorem C6_validate_pan_iff (s : Str) :
    validate_pan s = true ↔
      (panClaim s = true ∨ ∃ t, s = t ++ ['\n'] ∧ panClaim t = true) := by
  rw [validate_pan_eq, Bool.and_eq_true, dollarMatch_iff]
  unfold panClaim
  constructor
  · rintro ⟨h | ⟨t, rfl, hsh⟩, h4⟩
    · exact Or.inl (by rw [Bool.and_eq_true]; exact ⟨h, h4⟩)
    · refine Or.inr ⟨t, rfl, ?_⟩
      rw [Bool.and_eq_true]
      refine ⟨hsh, ?_⟩
      have hlen : (3 : Nat) < t.length := by rw [panShape_length t hsh]; omega
      rwa [classAt_append _ _ _ _ hlen] at h4
  · rintro (h | ⟨t, rfl, h⟩)
    · rw [Bool.and_eq_true] at h
      exact ⟨Or.inl h.1, h.2⟩
    · rw [Bool.and_eq_true] at h
      have hlen : (3 : Nat) < t.length := by rw [panShape_length t h.1]; omega
      exact ⟨Or.inr ⟨t, rfl, h.1⟩, by rw [classAt_append _ _ _ _ hlen]; exact h.2⟩

/-- `validate_aadhaar` as a conjunction over the space-stripped string. -/
theorem validate_aadhaar_eq (s : Str) :
    validate_aadhaar s =
      (dollarMatch aadShape (s.filter (fun c => !(c = ' '))) &&
        classAt (fun c => !(c = '0' || c = '1')) (s.filter (fun c => !(c = ' '))) 0) := by
  cases h : dollarMatch aadShape (s.filter (fun c => !(c = ' '))) <;>
    simp [validate_aadhaar, h, classAt]

/-- Claim-side predicate for C7: exactly 12 digits whose first digit is
neither 0 nor 1. -/
def aadClaim (c : Str) : Bool :=
  aadShape c && classAt (fun d => !(d = '0' || d = '1')) c 0

/-- C7 — counterexample: the claim asserts
`validate_aadhaar("234567890123") = false`, but that string is 12 digits
starting with 2, and the code returns true for it. -/
theorem C7_counterexample :
    validate_aadhaar "234567890123".data = true ∧
      "234567890123".data.length = 12 := by
  refine ⟨by decide, by decide⟩

theorem aadShape_length (s : Str) (h : aadShape s = true) : s.length = 12 := by
  unfold aadShape at h
  rw [Bool.and_eq_true] at h
  exact of_decide_eq_true h.1

/-- C7 — amended: `validate_aadhaar s` is true iff `s` with all spaces
removed is exactly 12 digits — or 12 digits followed by one trailing
newline — whose first digit is neither 0 nor 1; in particular
`"1234 5678 9012"` is rejected (first digit 1), `"234567890121"` is
accepted, and `"234567890123"` (12 digits starting with 2, not 13 digits)
is accepted as well. -/
theorem C7_validate_aadhaar_iff :
    validate_aadhaar "1234 5678 9012".data = false ∧
    validate_aadhaar "234567890121".data = true ∧
    validate_aadhaar "234567890123".data = true ∧
    ∀ s : Str,
      (validate_aadhaar s = true ↔
        (aadClaim (s.filter (fun c => !(c = ' '))) = true ∨
          ∃ t, s.filter (fun c => !(c = ' ')) = t ++ ['\n'] ∧ aadClaim t = true)) := by
  refine ⟨by decide, by decide, by decide, ?_⟩
  intro s
  rw [validate_aadhaar_eq, Bool.and_eq_true, dollarMatch_iff]
  unfold aadClaim
  constructor
  · rintro ⟨h | ⟨t, he, hsh⟩, h0⟩
    · exact Or.inl (by rw [Bool.and_eq_true]; exact ⟨h, h0⟩)
    · refine Or.inr ⟨t, he, ?_⟩
      rw [Bool.and_eq_true]
      refine ⟨hsh, ?_⟩
      have hlen : (0 : Nat) < t.length := by rw [aadShape_length t hsh]; omega
      rwa [he, classAt_append _ _ _ _ hlen] at h0
  · rintro (h | ⟨t, he, h⟩)
    · rw [Bool.and_eq_true] at h
      exact ⟨Or.inl h.1, h.2⟩
    · rw [Bool.and_eq_true] at h
      have hlen : (0 : Nat) < t.length := by rw [aadShape_length t h.1]; omega
      exact ⟨Or.inr ⟨t, he, h.1⟩, by rw [he, classAt_append _ _ _ _ hlen]; exact h.2⟩

/-! ## Quality-score claim (C5) -/

theorem entLookup_isSome (es : List (String × List Str)) (r : String) :
    (entLookup es r).isSome = es.any (fun p => p.1 = r) := by
  induction es with
  | nil => rfl
  | cons a t ih =>
    by_cases h : a.1 = r
    · simp [entLookup, List.find?_cons_of_pos, h]
    · have e : entLookup (a :: t) r = entLookup t r := by
        unfold entLookup
        rw [List.find?_cons_of_neg _ (by simp [h])]
      rw [e, ih]
      simp [h]

theorem foundCount_eq_spec (entities : List (String × List Str))
    (required : List String) :
    foundCount entities required =
      (required.filter (fun r => entities.any (fun p => p.1 = r))).length := by
  unfold foundCount
  congr 1
  apply List.filter_congr
  intro r _
  rw [entLookup_isSome]

theorem bonus_half_eq (o : Option (List Str)) (f : Str → Bool) :
    (((match o with
       | some l => if 0 < (l.filter f).length then 5 else 0
       | none => 0) : Nat) : ℚ) =
      if (o.getD []).any f then (5 : ℚ) else 0 := by
  cases o with
  | none => simp
  | some l =>
    have hiff : (0 < (l.filter f).length) ↔ (l.any f = true) := by
      rw [List.length_pos, Ne, List.filter_eq_nil]
      simp [List.any_eq_true]
    simp only [Option.getD_some]
    rw [if_congr hiff rfl rfl]
    rw [apply_ite (fun n : Nat => (n : ℚ))]
    simp

theorem bonus_eq_spec (entities : List (String × List Str)) :
    ((validation_bonus entities : Nat) : ℚ) =
      (if ((entLookup entities "pan_number").getD []).any validate_pan
        then (5 : ℚ) else 0) +
      (if ((entLookup entities "aadhaar_number").getD []).any validate_aadhaar
        then (5 : ℚ) else 0) := by
  unfold validation_bonus
  push_cast
  rw [bonus_half_eq, bonus_half_eq]

/-- Modelled from the spec: the required-entity-type list of each known
document type (`other` requires nothing). -/
def specRequired : String → List String
  | "loan_application" => ["pan_number", "phone_number", "amount", "date"]
  | "kyc_document" => ["pan_number", "aadhaar_number", "phone_number", "date"]
  | "bank_statement" => ["account_number", "ifsc_code", "date", "amount"]
  | "salary_slip" => ["pan_number", "amount", "date"]
  | _ => []

def knownDocTypes : List String :=
  ["loan_application", "kyc_document", "bank_statement", "salary_slip"]

theorem score_bounds (text : Str) (dt : String) (req : List String)
    (hreq : ((required_entities.find? (fun p => p.1 = dt)).map (fun p => p.2)).getD []
      = req)
    (h : req.isEmpty = false) :
    0 ≤ calculate_quality_score text dt ∧ calculate_quality_score text dt ≤ 100 := by
  rw [cqs_eq text dt req hreq h]
  refine ⟨le_min (by norm_num) ?_, min_le_left _ _⟩
  apply add_nonneg
  · apply mul_nonneg
    · exact div_nonneg (Nat.cast_nonneg _) (Nat.cast_nonneg _)
    · norm_num
  · exact Nat.cast_nonneg _

/-- C5 — `calculate_quality_score(text, "other")` is always 75; for each of
the four known document types the score equals
`min(100, found/required * 100 + pan-bonus + aadhaar-bonus)` computed from
`extract_entities(text)`, and always lies in `[0, 100]`. -/
theorem C5_calculate_quality_score (text : Str) :
    calculate_quality_score text "other" = 75 ∧
    ∀ dt ∈ knownDocTypes,
      (calculate_quality_score text dt =
        min 100
          ((((specRequired dt).filter
              (fun r => (extract_entities text).any (fun p => p.1 = r))).length : ℚ) /
              ((specRequired dt).length : ℚ) * 100 +
            ((if ((entLookup (extract_entities text) "pan_number").getD []).any
                validate_pan then (5 : ℚ) else 0) +
             (if ((entLookup (extract_entities text) "aadhaar_number").getD []).any
                validate_aadhaar then (5 : ℚ) else 0)))) ∧
      0 ≤ calculate_quality_score text dt ∧ calculate_quality_score text dt ≤ 100 := by
  refine ⟨rfl, ?_⟩
  intro dt hdt
  fin_cases hdt
  · exact ⟨by rw [cqs_eq text "loan_application"
          ["pan_number", "phone_number", "amount", "date"] rfl rfl,
        foundCount_eq_spec, bonus_eq_spec]; rfl,
      score_bounds text "loan_application"
        ["pan_number", "phone_number", "amount", "date"] rfl rfl⟩
  · exact ⟨by rw [cqs_eq text "kyc_document"
          ["pan_number", "aadhaar_number", "phone_number", "date"] rfl rfl,
        foundCount_eq_spec, bonus_eq_spec]; rfl,
      score_bounds text "kyc_document"
        ["pan_number", "aadhaar_number", "phone_number", "date"] rfl rfl⟩
  · exact ⟨by rw [cqs_eq text "bank_statement"
          ["account_number", "ifsc_code", "date", "amount"] rfl rfl,
        foundCount_eq_spec, bonus_eq_spec]; rfl,
      score_bounds text "bank_statement"
        ["account_number", "ifsc_code", "date", "amount"] rfl rfl⟩
  · exact ⟨by rw [cqs_eq text "salary_slip" ["pan_number", "amount", "date"] rfl rfl,
        foundCount_eq_spec, bonus_eq_spec]; rfl,
      score_bounds text "salary_slip" ["pan_number", "amount", "date"] rfl rfl⟩

/-! ## Case-sensitivity mismatch (C10) -/

theorem upperC_not_lower (c : Char) (h : isUpperC c = true) : isLowerC c = false := by
  unfold isUpperC at h
  rw [Bool.and_eq_true, decide_eq_true_eq, decide_eq_true_eq] at h
  unfold isLowerC
  cases hl : (decide ('a' ≤ c) && decide (c ≤ 'z')) with
  | false => rfl
  | true =>
    rw [Bool.and_eq_true, decide_eq_true_eq, decide_eq_true_eq] at hl
    exact absurd (le_trans hl.1 h.2) (by decide)

theorem digitC_not_lower (c : Char) (h : isDigitC c = true) : isLowerC c = false := by
  unfold isDigitC at h
  rw [Bool.and_eq_true, decide_eq_true_eq, decide_eq_true_eq] at h
  unfold isLowerC
  cases hl : (decide ('a' ≤ c) && decide (c ≤ 'z')) with
  | false => rfl
  | true =>
    rw [Bool.and_eq_true, decide_eq_true_eq, decide_eq_true_eq] at hl
    exact absurd (le_trans hl.1 h.2) (by decide)

theorem panShape_chars (u : Str) (h : panShape u = true) :
    ∀ c ∈ u, isUpperC c = true ∨ isDigitC c = true := by
  unfold panShape at h
  rw [Bool.and_eq_true, Bool.and_eq_true, Bool.and_eq_true] at h
  obtain ⟨⟨⟨_, h5⟩, h4⟩, h1⟩ := h
  intro c hc
  rw [← List.take_append_drop 5 u] at hc
  rcases List.mem_append.1 hc with hm | hm
  · exact Or.inl (List.all_eq_true.1 h5 c hm)
  · rw [← List.take_append_drop 4 (u.drop 5)] at hm
    rcases List.mem_append.1 hm with hm2 | hm2
    · exact Or.inr (List.all_eq_true.1 h4 c hm2)
    · rw [List.drop_drop] at hm2
      exact Or.inl (List.all_eq_true.1 h1 c hm2)

theorem ifscShape_chars (u : Str) (h : ifscShape u = true) :
    ∀ c ∈ u, isUpperC c = true ∨ isDigitC c = true := by
  unfold ifscShape at h
  rw [Bool.and_eq_true, Bool.and_eq_true, Bool.and_eq_true] at h
  obtain ⟨⟨⟨hlen, h4⟩, h0⟩, h6⟩ := h
  rw [decide_eq_true_eq] at hlen h0
  intro c hc
  rw [← List.take_append_drop 4 u] at hc
  rcases List.mem_append.1 hc with hm | hm
  · exact Or.inl (List.all_eq_true.1 h4 c hm)
  · have hd : u.drop 4 = '0' :: u.drop 5 := by
      obtain ⟨h4lt, hget⟩ := List.get?_eq_some.1 h0
      rw [List.drop_eq_get_cons h4lt, hget]
    rw [hd] at hm
    rcases List.mem_cons.1 hm with hm2 | hm2
    · exact Or.inr (by rw [hm2]; decide)
    · have hor := List.all_eq_true.1 h6 c hm2
      simp only [Bool.or_eq_true] at hor
      rcases hor with h' | h'
      exacts [Or.inl h', Or.inr h']

/-- A string accepted by an all-uppercase-or-digit anchored pattern (with
the possible trailing newline Python's `$` allows) contains no lowercase
letter. -/
theorem dollarMatch_no_lower (shape : Str → Bool)
    (hshape : ∀ u, shape u = true → ∀ c ∈ u, isUpperC c = true ∨ isDigitC c = true)
    (s : Str) (h : dollarMatch shape s = true) :
    ∀ c ∈ s, isLowerC c = false := by
  rcases (dollarMatch_iff shape s).1 h with hs | ⟨t, rfl, ht⟩
  · intro c hc
    rcases hshape s hs c hc with h1 | h1
    exacts [upperC_not_lower c h1, digitC_not_lower c h1]
  · intro c hc
    rcases List.mem_append.1 hc with hm | hm
    · rcases hshape t ht c hm with h1 | h1
      exacts [upperC_not_lower c h1, digitC_not_lower c h1]
    · rw [List.mem_singleton.1 hm]
      decide

/-- C10 — extraction is case-insensitive but the validators are not: any
string containing a lowercase letter fails `validate_pan` and
`validate_ifsc`; `extract_entities` really can return a lowercase PAN
value (a concrete witness text); and on that text the quality score earns
no validation bonus (`100/3` exactly, with no `+5`). -/
theorem C10_lowercase_never_validates :
    (∀ s : Str, (∃ c ∈ s, isLowerC c = true) →
        validate_pan s = false ∧ validate_ifsc s = false) ∧
    extract_entities "abcpe1234f".data = [("pan_number", ["abcpe1234f".data])] ∧
    calculate_quality_score "abcpe1234f".data "salary_slip" = 100 / 3 := by
  refine ⟨?_, by decide, ?_⟩
  · rintro s ⟨c, hc, hl⟩
    constructor
    · cases hv : validate_pan s with
      | false => rfl
      | true =>
        rw [validate_pan_eq, Bool.and_eq_true] at hv
        have := dollarMatch_no_lower panShape panShape_chars s hv.1 c hc
        rw [this] at hl
        exact absurd hl (by simp)
    · cases hv : validate_ifsc s with
      | false => rfl
      | true =>
        have hv' : dollarMatch ifscShape s = true := hv
        have := dollarMatch_no_lower ifscShape ifscShape_chars s hv' c hc
        rw [this] at hl
        exact absurd hl (by simp)
  · rw [cqs_eq _ "salary_slip" ["pan_number", "amount", "date"] rfl rfl]
    have h1 : foundCount (extract_entities "abcpe1234f".data)
        ["pan_number", "amount", "date"] = 1 := by decide
    have h2 : validation_bonus (extract_entities "abcpe1234f".data) = 0 := by decide
    rw [h1, h2]
    norm_num [min_def]

/-! ## RAG engine (src/rag_engine.py)

`generate_response` depends on two external conditions: whether the Ollama
backend is considered available (`check_ollama_available`) and, when it is,
whether the `ollama.chat` call returns a reply or raises.  Both are
parameters of the embedding: `backend_reply = none` models the `except`
branch. -/

/-- A retrieved context chunk: its text and the `filename` entry of its
metadata bag (`metadata.get('filename', 'Unknown')` when absent). -/
structure ContextChunk where
  text : Str
  filename : Option Str

/-- `_fallback_response(query, context_chunks)`: the degraded answer built
without the LLM. -/
def fallback_response (query : Str) (context_chunks : List ContextChunk) : Str :=
  if context_chunks.isEmpty then
    "No relevant documents found for your query.".data
  else
    let header :=
      "**Ollama LLM not available. Here are the relevant document excerpts:**\n\n".data
    let body := (context_chunks.take 3).enum.foldl
      (fun acc ic =>
        acc ++ ("**".data ++ (Nat.repr (ic.1 + 1)).data ++ ". From ".data ++
          ic.2.filename.getD "Unknown".data ++ ":**\n".data ++
          ic.2.text.take 500 ++ "...\n\n".data))
      header
    body ++ "\n*Install and run Ollama to get AI-powered answers: https://ollama.ai*".data

/-- `generate_response(query, context_chunks)`: use the backend when it is
available and its call succeeds, otherwise fall back. -/
def generate_response (ollama_available : Bool) (backend_reply : Option Str)
    (query : Str) (context_chunks : List ContextChunk) : Str :=
  if !ollama_available then fallback_response query context_chunks
  else
    match backend_reply with
    | some reply => reply
    | none => fallback_response query context_chunks

theorem foldl_append_eq_join {α : Type} (f : α → Str) :
    ∀ (l : List α) (a : Str),
      l.foldl (fun acc x => acc ++ f x) a = a ++ (l.map f).join := by
  intro l
  induction l with
  | nil => intro a; simp
  | cons x t ih =>
    intro a
    simp only [List.foldl_cons, List.map_cons]
    rw [ih, List.append_assoc]
    simp

/-- C8 — `generate_response` never propagates a backend error: whenever the
backend is unavailable or its invocation fails, the result is the fallback
response; the fallback returns the fixed no-documents message on an empty
context list, and otherwise the formatted excerpt of at most the first
3 chunks, each labelled with its source filename and truncated to its
first 500 characters. -/
theorem C8_generate_response_fallback (ollama_available : Bool)
    (backend_reply : Option Str) (query : Str) (context_chunks : List ContextChunk) :
    ((ollama_available = false ∨ backend_reply = none) →
      generate_response ollama_available backend_reply query context_chunks =
        fallback_response query context_chunks) ∧
    fallback_response query [] = "No relevant documents found for your query.".data ∧
    (context_chunks ≠ [] →
      fallback_response query context_chunks =
        "**Ollama LLM not available. Here are the relevant document excerpts:**\n\n".data
          ++ ((context_chunks.take 3).enum.map
              (fun ic =>
                "**".data ++ (Nat.repr (ic.1 + 1)).data ++ ". From ".data ++
                  ic.2.filename.getD "Unknown".data ++ ":**\n".data ++
                  ic.2.text.take 500 ++ "...\n\n".data)).join
          ++ "\n*Install and run Ollama to get AI-powered answers: https://ollama.ai*".data) := by
  refine ⟨?_, rfl, ?_⟩
  · rintro (rfl | rfl)
    · rfl
    · cases ollama_available <;> rfl
  · intro hne
    simp only [fallback_response]
    rw [if_neg (by simpa using hne)]
    rw [foldl_append_eq_join]

/-- Witness for C8 at concrete inputs: unavailable backend, one chunk. -/
theorem C8_witness :
    generate_response false none "q".data
        [⟨"hello".data, some "a.txt".data⟩] =
      fallback_response "q".data [⟨"hello".data, some "a.txt".data⟩] ∧
    fallback_response "q".data [] = "No relevant documents found for your query.".data := by
  have h := C8_generate_response_fallback false none "q".data
    [⟨"hello".data, some "a.txt".data⟩]
  exact ⟨h.1 (Or.inl rfl), h.2.1⟩

/-! ## Vector-store deletion (`delete_document_embeddings`) -/

/-- A stored vector record: its id and the `document_id` of its metadata
(the embedding vector and remaining metadata play no role in deletion). -/
structure VecRecord where
  id : String
  document_id : String

/-- `collection.get(where={"document_id": doc_id})['ids']`. -/
def collection_get_ids (coll : List VecRecord) (doc_id : String) : List String :=
  (coll.filter (fun r => r.document_id = doc_id)).map (fun r => r.id)

/-- `collection.delete(ids=ids)`. -/
def collection_delete (coll : List VecRecord) (ids : List String) : List VecRecord :=
  coll.filter (fun r => !ids.contains r.id)

/-- `delete_document_embeddings(doc_id)`: look up the chunk ids of the
document, delete them when there are any, and report success. -/
def delete_document_embeddings (coll : List VecRecord) (doc_id : String) :
    List VecRecord × Bool :=
  let ids := collection_get_ids coll doc_id
  (if !ids.isEmpty then collection_delete coll ids else coll, true)

/-- After deletion, no surviving record carries the deleted document id. -/
theorem delete_clears (coll : List VecRecord) (doc_id : String) :
    ∀ r ∈ (delete_document_embeddings coll doc_id).1, r.document_id ≠ doc_id := by
  intro r hr
  simp only [delete_document_embeddings] at hr
  by_cases h : (collection_get_ids coll doc_id).isEmpty
  · rw [if_neg (by simp [h])] at hr
    have hcoll : ∀ s ∈ coll, ¬(s.document_id = doc_id) := by
      have hnil : (coll.filter (fun s => s.document_id = doc_id)).map (fun s => s.id)
          = [] := by
        have : collection_get_ids coll doc_id = [] := List.isEmpty_iff.1 h
        exact this
      have := List.map_eq_nil.1 hnil
      intro s hs hsd
      have : s ∈ (coll.filter (fun s => s.document_id = doc_id)) :=
        List.mem_filter.2 ⟨hs, by simp [hsd]⟩
      simp_all
    exact fun hd => hcoll r hr hd
  · rw [if_pos (by simp [h])] at hr
    unfold collection_delete at hr
    obtain ⟨hrc, hnc⟩ := List.mem_filter.1 hr
    intro hd
    have hmem : r.id ∈ collection_get_ids coll doc_id := by
      unfold collection_get_ids
      exact List.mem_map.2 ⟨r, List.mem_filter.2 ⟨hrc, by simp [hd]⟩, rfl⟩
    have := List.elem_eq_true_of_mem hmem
    simp_all

/-- C9 — `delete_document_embeddings` succeeds, removes every record whose
metadata document id equals the given id (and only removes records that
were present), leaves the collection unchanged when no record matches, and
is idempotent: a second call with the same id is a no-op that also
succeeds. -/
theorem C9_delete_document_embeddings (coll : List VecRecord) (doc_id : String) :
    (delete_document_embeddings coll doc_id).2 = true ∧
    (∀ r ∈ (delete_document_embeddings coll doc_id).1, r.document_id ≠ doc_id) ∧
    (∀ r ∈ (delete_document_embeddings coll doc_id).1, r ∈ coll) ∧
    ((∀ r ∈ coll, r.document_id ≠ doc_id) →
      delete_document_embeddings coll doc_id = (coll, true)) ∧
    delete_document_embeddings (delete_document_embeddings coll doc_id).1 doc_id =
      ((delete_document_embeddings coll doc_id).1, true) := by
  have hnomatch : ∀ c : List VecRecord, (∀ r ∈ c, r.document_id ≠ doc_id) →
      delete_document_embeddings c doc_id = (c, true) := by
    intro c hc
    unfold delete_document_embeddings
    have hg : collection_get_ids c doc_id = [] := by
      unfold collection_get_ids
      rw [List.filter_eq_nil.2 (by intro a ha; simpa using hc a ha)]
      rfl
    rw [hg]
    rfl
  refine ⟨rfl, delete_clears coll doc_id, ?_, hnomatch coll, ?_⟩
  · intro r hr
    simp only [delete_document_embeddings] at hr
    by_cases h : (collection_get_ids coll doc_id).isEmpty
    · rw [if_neg (by simp [h])] at hr
      exact hr
    · rw [if_pos (by simp [h])] at hr
      exact (List.mem_filter.1 hr).1
  · exact hnomatch _ (delete_clears coll doc_id)

end IDP
